import Mathlib

/-!
# tw-nhi-icc — verification of the client SDK core

Shallow embedding of `src/lib.ts` (the `TWNHIICCService` class, the
`fetchWithTimeout` helper and the `mapCardList` reshaper) together with the
collaborator contracts the code consumes (the bounded-time HTTP capability and
the socket capability, per the spec's §6).

Conventions:
* JS `null`/`undefined` is `Option.none`; a live `WebSocket` object is
  identified by a numeric id (the object's identity is all the code compares).
* JS numbers used as millisecond timeouts are `Int` (the code only compares
  them with `>=`/`<`); interval arguments are `Int` and the JS
  `Math.floor` is the identity on them, with the `< 0 → 0` clamp kept.
* `Date` objects are represented by the epoch-millisecond value they were
  constructed from, which is the only datum `new Date(timestamp)` receives.
* The single-threaded event loop is modelled by an explicit event list: each
  event is the firing of one callback / resolution of one await point, and a
  step function applies the source code of that callback to the channel state.
-/

namespace TwNhiIcc

/-! ## Card data model (src/lib.ts lines 9-75, 128-140) -/

/-- Sex enumeration (`const enum Sex { M = "M", F = "F" }`). -/
inductive Sex where
  | M
  | F
deriving DecidableEq, Repr

/-- A JS `Date`: the code only ever builds one via `new Date(timestamp)`,
so the epoch-millisecond value is its full observable content here. -/
structure Date where
  epochMs : Int
deriving DecidableEq, Repr

/-- Wire shape of one card as served by the remote service
(`interface ServiceNHICard`). -/
structure ServiceNHICard where
  reader_name : String
  card_no : String
  full_name : String
  id_no : String
  birth_date : String
  birth_date_timestamp : Int
  sex : Sex
  issue_date : String
  issue_date_timestamp : Int
deriving DecidableEq, Repr

/-- Domain shape of one card (`interface NHICard`). -/
structure NHICard where
  readerName : String
  cardNo : String
  fullName : String
  idNo : String
  birthday : Date
  sex : Sex
  issueDate : Date
deriving DecidableEq, Repr

/-- `mapCardList` (src/lib.ts lines 128-140): `cards.map((e) => ({...}))`. -/
def mapCardList (cards : List ServiceNHICard) : List NHICard :=
  cards.map fun e =>
    { readerName := e.reader_name
      cardNo := e.card_no
      fullName := e.full_name
      idNo := e.id_no
      birthday := ⟨e.birth_date_timestamp⟩
      sex := e.sex
      issueDate := ⟨e.issue_date_timestamp⟩ }

/-! ## Live Update Channel state machine (src/lib.ts lines 214-361)

The channel's mutable fields are `this.webSocket` and
`this.webSocketInterval`.  The reconnect closure `retry` is an async
function; its suspension points (awaiting the retry policy, awaiting
`sleep`) are modelled by a program counter.  A socket whose `onopen` has not
fired yet is "pending".  `created` logs every `new WebSocket(url)`
evaluation, i.e. every underlying connection attempt. -/

/-- Program counter of the in-flight `retry` coroutine (lines 268-319). -/
inductive RetryPC where
  | awaitingPolicy
  | awaitingSleep
deriving DecidableEq, Repr

/-- Channel state.  `hasPolicy` records whether `onWebSocketRetry` is set
(the field is assigned by the caller and read, never written, by the
channel code). -/
structure Machine where
  webSocket : Option Nat
  webSocketInterval : Option Int
  pendingInit : List Nat
  retryPC : Option RetryPC
  pendingNew : Option Nat
  nextId : Nat
  created : List Nat
  hasPolicy : Bool
deriving DecidableEq, Repr

/-- A freshly constructed `TWNHIICCService`: `webSocket = null`,
`webSocketInterval` undefined, no socket ever created. -/
def initMachine (hasPolicy : Bool) : Machine :=
  { webSocket := none
    webSocketInterval := none
    pendingInit := []
    retryPC := none
    pendingNew := none
    nextId := 0
    created := []
    hasPolicy := hasPolicy }

/-- Outcome of awaiting `this.onWebSocketRetry()`: a value (`boolean | void`,
so `Option Bool` with `none` for `undefined`) or a throw/rejection. -/
inductive PolicyRes where
  | val (b : Option Bool)
  | threw
deriving DecidableEq, Repr

/-- One event-loop event touching the channel. -/
inductive Ev where
  /-- the caller invokes `openWebSocket(interval)` (synchronous prefix up to
  `await promise`); `none` is an explicit `undefined` argument. -/
  | openCall (interval : Option Int)
  /-- the oldest pending initial socket fires `onopen`; the `await promise`
  in `openWebSocket` resumes and assigns `this.webSocket`. -/
  | initOpen
  /-- the oldest pending initial socket fires `onerror`; `openWebSocket`
  rejects with `NetworkError` and assigns nothing. -/
  | initError
  /-- the caller invokes `closeWebSocket()`. -/
  | close
  /-- the current socket fires `onclose` (lines 246-252). -/
  | sockClosed
  /-- the awaited `this.onWebSocketRetry()` settles (lines 271-282). -/
  | policyRet (r : PolicyRes)
  /-- the awaited `sleep(...)` resolves (lines 284-318 resume). -/
  | sleepDone
  /-- the pending reconnect socket fires `onopen` (lines 306-314). -/
  | newOpen
  /-- the pending reconnect socket fires `onerror` (lines 316-318). -/
  | newError
deriving DecidableEq, Repr

/-- Interval clamping in `openWebSocket`/`setWebSocketInterval`:
`if (interval < 0) interval = 0; else interval = Math.floor(interval)`
(floor is the identity on integer-valued arguments). -/
def clamp (i : Int) : Int :=
  if i < 0 then 0 else i

/-- Entry state of the `retry` coroutine: with a registered policy it first
awaits `this.onWebSocketRetry()`; otherwise `d = 0 < RETRY_INTERVAL` and it
awaits `sleep` directly. -/
def retryEntry (hasPolicy : Bool) : RetryPC :=
  if hasPolicy then .awaitingPolicy else .awaitingSleep

/-- One event-loop step, transcribing the corresponding handler bodies of
src/lib.ts.  Events arriving in a state where their callback cannot fire
(e.g. `newOpen` with no pending reconnect socket) leave the state unchanged. -/
def step (m : Machine) (e : Ev) : Machine :=
  match e with
  | .openCall interval =>
    -- lines 221-243: `if (this.webSocket) return;` then clamp, store
    -- interval, `new WebSocket(url)` and wait for onopen/onerror.
    if m.webSocket.isSome then m
    else
      { m with
        webSocketInterval := interval.map clamp
        pendingInit := m.pendingInit ++ [m.nextId]
        created := m.created ++ [m.nextId]
        nextId := m.nextId + 1 }
  | .initOpen =>
    -- lines 245-328 and 343: onopen installs the handlers and resolves the
    -- promise; `this.webSocket = await promise`.
    match m.pendingInit with
    | [] => m
    | id :: rest => { m with webSocket := some id, pendingInit := rest }
  | .initError =>
    -- lines 330-340: reject; `openWebSocket` throws, no assignment.
    match m.pendingInit with
    | [] => m
    | _ :: rest => { m with pendingInit := rest }
  | .close =>
    -- lines 356-361: `if (this.webSocket) { close(1000); this.webSocket = null; }`
    if m.webSocket.isSome then { m with webSocket := none } else m
  | .sockClosed =>
    -- lines 246-252: `if (!this.webSocket) return; void retry();`
    if m.webSocket.isNone then m
    else { m with retryPC := some (retryEntry m.hasPolicy) }
  | .policyRet r =>
    -- lines 271-282: `if (result === false) { this.webSocket = null; return; }`,
    -- a throw is logged and execution falls through to the sleep.
    match m.retryPC with
    | some .awaitingPolicy =>
      match r with
      | .val (some false) => { m with webSocket := none, retryPC := none }
      | _ => { m with retryPC := some .awaitingSleep }
    | _ => m
  | .sleepDone =>
    -- lines 290-318: `if (!this.webSocket) return;` else
    -- `new WebSocket(url)` with onopen/onerror installed; retry() returns.
    match m.retryPC with
    | some .awaitingSleep =>
      if m.webSocket.isNone then { m with retryPC := none }
      else
        { m with
          retryPC := none
          pendingNew := some m.nextId
          created := m.created ++ [m.nextId]
          nextId := m.nextId + 1 }
    | _ => m
  | .newOpen =>
    -- lines 306-314: install handlers and `this.webSocket = newWebSocket`
    -- (note: no re-check of `this.webSocket` here).
    match m.pendingNew with
    | some id => { m with webSocket := some id, pendingNew := none }
    | none => m
  | .newError =>
    -- lines 316-318: `void retry()` again.
    match m.pendingNew with
    | some _ => { m with pendingNew := none, retryPC := some (retryEntry m.hasPolicy) }
    | none => m

/-- Run a list of event-loop events in order. -/
def run (m : Machine) (evs : List Ev) : Machine :=
  evs.foldl step m

/-- `isWebSocketRunning()` (lines 349-351): `this.webSocket !== null`. -/
def isWebSocketRunning (m : Machine) : Bool :=
  m.webSocket.isSome

/-- `setWebSocketInterval(interval)` (lines 368-390).  Returns the boolean
result, the updated channel, and the list of raw messages sent over the
socket. -/
def setWebSocketInterval (m : Machine) (interval : Option Int) :
    Bool × Machine × List Int :=
  if m.webSocket.isNone then (false, m, [])
  else
    match interval with
    | some i =>
      (true, { m with webSocketInterval := some (clamp i) }, [clamp i])
    | none =>
      (false, { m with webSocketInterval := none }, [])

/-- Abstract connection states of the spec's §3/§4.4. -/
inductive Phase where
  | closed
  | connecting
  | opened
  | retrying
deriving DecidableEq, Repr

/-- Map the concrete channel state onto the spec's abstract state.  A held
socket with a retry coroutine in flight (the socket is then the stale,
already-disconnected one) is the spec's `Retrying`; a held socket otherwise
is `Open`; with no held socket, an unresolved initial `openWebSocket` is
`Connecting` and everything else is `Closed` (per §4.4, `close()` makes the
channel `Closed` immediately, even if a doomed retry coroutine lingers). -/
def phase (m : Machine) : Phase :=
  if m.webSocket.isSome then
    if m.retryPC.isSome ∨ m.pendingNew.isSome then .retrying else .opened
  else if m.pendingInit ≠ [] then .connecting
  else .closed

/-! ## Timed Request Executor (src/lib.ts lines 82-126)

`fetchWithTimeout` consumes the `fetch` capability.  The capability is
modelled from the spec's collaborator contract (§6): the environment chooses
a `FetchOutcome` — either a response arriving after `delay` ms whose body
read completes `bodyDelay` ms later, or a transport rejection after `delay`
ms carrying an error-shaped value (per the fetch contract, transport
rejections are `TypeError`s, which have string `name`/`message`).  An
`AbortSignal.timeout(b)` aborts whichever of the two awaits (`fetch`,
`response.json()`/`response.text()`) is still pending when the deadline `b`
passes, delivering a `DOMException`; it fires before an event scheduled
strictly later than `b`. -/

/-- Behaviour of the transport for one request, chosen by the environment.
`bodyJson` is `none` when the body text is not valid JSON (so `json()`
throws a `SyntaxError`, an error-shaped non-`DOMException`). -/
inductive FetchOutcome (T : Type) where
  | respond (delay : Nat) (status : Nat) (bodyDelay : Nat)
      (bodyText : String) (bodyJson : Option T)
  | refuse (delay : Nat) (name msg : String)
deriving DecidableEq, Repr

/-- A value thrown by the transport capability: a `DOMException` (abort) or
an error-shaped value with string `name`/`message`. -/
inductive JsThrown where
  | domException (msg : String)
  | errorShaped (name msg : String)
deriving DecidableEq, Repr

/-- What `fetchWithTimeout` can throw, as distinguishable kinds:
`timeoutError`/`networkError` are the library taxonomy classes;
`statusError` is the generic `Error` of line 113 (carries status code and
raw body text); `bodyError` is the generic `Error` of line 124 (status code
only); `rethrown` is a raw transport value re-thrown unwrapped by the
`skipCatch` path of lines 112-118. -/
inductive JsError where
  | timeoutError (msg : String)
  | networkError (name msg : String)
  | statusError (status : Nat) (bodyText : String)
  | bodyError (status : Nat)
  | rethrown (e : JsThrown)
deriving DecidableEq, Repr

/-- Whether the signal deadline `b` (if a signal is armed) passes strictly
before an event at time `t`. -/
def timedOut (signal : Option Int) (t : Nat) : Bool :=
  match signal with
  | some b => decide (b < (t : Int))
  | none => false

/-- Line 83-85: a signal is armed iff `config.timeout` is defined and
`>= 0` (no caller of the library passes `config.signal`). -/
def effectiveSignal (timeout : Option Int) : Option Int :=
  match timeout with
  | some t => if 0 ≤ t then some t else none
  | none => none

/-- The settled result of `await response.text()` under the armed signal. -/
def bodyTextResult {T : Type} (signal : Option Int) (delay bodyDelay : Nat)
    (bodyText : String) (_bodyJson : Option T) : Except JsThrown String :=
  if timedOut signal (delay + bodyDelay) then
    .error (.domException "The operation was aborted due to timeout")
  else .ok bodyText

/-- The settled result of `await response.json()` under the armed signal. -/
def bodyJsonResult {T : Type} (signal : Option Int) (delay bodyDelay : Nat)
    (bodyJson : Option T) : Except JsThrown T :=
  if timedOut signal (delay + bodyDelay) then
    .error (.domException "The operation was aborted due to timeout")
  else
    match bodyJson with
    | some v => .ok v
    | none => .error (.errorShaped "SyntaxError" "Unexpected token")

/-- `fetchWithTimeout` (lines 82-126), fused with the transport contract:
arm the signal, await `fetch`, classify a rejection (`DOMException` →
`TimeoutError("request timeout")`, error-shaped → `NetworkError`); on a
response, `status === 200` parses the JSON body (a `DOMException` during the
read → `TimeoutError("body timeout")`, any other failure → the generic
line-124 error), any other status reads the body text into the generic
line-113 error — with `skipCatch` set first, so a failure of the text read
itself is re-thrown raw. -/
def fetchWithTimeout {T : Type} (timeout : Option Int) (f : FetchOutcome T) :
    Except JsError T :=
  let signal := effectiveSignal timeout
  match f with
  | .refuse d name msg =>
    if timedOut signal d then .error (.timeoutError "request timeout")
    else .error (.networkError name msg)
  | .respond d status bodyDelay bodyText bodyJson =>
    if timedOut signal d then .error (.timeoutError "request timeout")
    else
      if status = 200 then
        match bodyJsonResult signal d bodyDelay bodyJson with
        | .ok v => .ok v
        | .error (.domException _) => .error (.timeoutError "body timeout")
        | .error (.errorShaped _ _) => .error (.bodyError status)
      else
        match bodyTextResult signal d bodyDelay bodyText bodyJson with
        | .ok s => .error (.statusError status s)
        | .error e => .error (.rethrown e)

/-- `getVersion(timeout = 5000)` (lines 196-198): delegates to
`fetchWithTimeout` with `{ timeout }`.  The version body is opaque here. -/
def getVersion {T : Type} (timeout : Int) (f : FetchOutcome T) : Except JsError T :=
  fetchWithTimeout (some timeout) f

/-- `getCardList(timeout = 15000)` (lines 208-212): delegates to
`fetchWithTimeout` expecting a wire card array, then reshapes it with
`mapCardList`. -/
def getCardList (timeout : Int) (f : FetchOutcome (List ServiceNHICard)) :
    Except JsError (List NHICard) :=
  (fetchWithTimeout (some timeout) f).map mapCardList

/-- Recogniser: the thrown value is the library's `TimeoutError` class. -/
def isTimeoutError {T : Type} (r : Except JsError T) : Bool :=
  match r with
  | .error (.timeoutError _) => true
  | _ => false

/-- Recogniser: the thrown value is the library's `NetworkError` class but
not its `TimeoutError` subclass. -/
def isNetworkError {T : Type} (r : Except JsError T) : Bool :=
  match r with
  | .error (.networkError _ _) => true
  | _ => false

/-! ## Inbound message handling (src/lib.ts lines 254-266)

`onmessage` parses the payload and invokes `this.onWebSocketUpdate` when
registered.  The callback's behaviour is chosen by the environment. -/

/-- Behaviour of one invocation of the `onWebSocketUpdate` callback. -/
inductive CallbackBehavior where
  | returnsValue
  | promiseResolves
  | promiseRejects (err : String)
  | throwsSync (err : String)
deriving DecidableEq, Repr

/-- Outcome of the `onmessage` handler: it either completes (having logged
the given messages via `console.error`) or lets an exception escape. -/
inductive MsgOutcome where
  | completed (logged : List String)
  | threw (err : String)
deriving DecidableEq, Repr

/-- The `onmessage` handler body (lines 254-266) for a well-formed payload:
call the callback if registered; a returned promise gets
`.catch(console.error)` attached; there is no try/catch around the
synchronous call itself.  The handler assigns no channel field. -/
def onmessage (m : Machine) (cb : Option CallbackBehavior) :
    Machine × MsgOutcome :=
  match cb with
  | none => (m, .completed [])
  | some .returnsValue => (m, .completed [])
  | some .promiseResolves => (m, .completed [])
  | some (.promiseRejects err) => (m, .completed [err])
  | some (.throwsSync err) => (m, .threw err)

/-! ## Timed reconnect spacing (src/lib.ts lines 268-319)

For the inter-attempt spacing bound the untimed machine does not suffice;
this small timed model follows the `retry` coroutine's clock reads.  An
attempt starts at `t` (`const t = Date.now()`, line 269); the policy await
takes `dPolicy` ms, so `d = Date.now() - t = dPolicy` (line 284); if
`d < RETRY_INTERVAL` the coroutine sleeps `RETRY_INTERVAL - d` ms (lines
286-288; `sleep` resolves after exactly the requested duration in this
model — a late resolution only increases the spacing); then
`new WebSocket(url)` is evaluated (line 304).  If that connection fails
after `dConnect` ms, `onerror` fires and the next attempt starts then. -/

/-- `RETRY_INTERVAL` (line 4). -/
def RETRY_INTERVAL : Nat := 1000

/-- The time at which an attempt starting at `t`, whose policy await takes
`dPolicy` ms, evaluates `new WebSocket(url)`. -/
def retryConnectTime (t dPolicy : Nat) : Nat :=
  let d := dPolicy
  if d < RETRY_INTERVAL then (t + d) + (RETRY_INTERVAL - d) else t + d

/-- Start times of the attempts of a reconnect sequence beginning at `t`:
each list element `(dPolicy, dConnect)` is one failed attempt (policy await
duration, then time for the new connection to fail); the final attempt is
the one that does not fail. -/
def attemptStarts (t : Nat) : List (Nat × Nat) → List Nat
  | [] => [t]
  | (dPolicy, dConnect) :: rest =>
    t :: attemptStarts (retryConnectTime t dPolicy + dConnect) rest

/-! ## Theorems -/

/-- C9: card-list reshaping maps the wire array element-wise with no
filtering, reordering or added elements; for every wire record the seven
domain fields are the renamed wire fields, with `birthday`/`issueDate` the
points in time at the epoch-millisecond wire timestamps. -/
theorem mapCardList_elementwise (cards : List ServiceNHICard) :
    (mapCardList cards).length = cards.length ∧
    ∀ i e, cards.get? i = some e →
      (mapCardList cards).get? i = some
        { readerName := e.reader_name
          cardNo := e.card_no
          fullName := e.full_name
          idNo := e.id_no
          birthday := ⟨e.birth_date_timestamp⟩
          sex := e.sex
          issueDate := ⟨e.issue_date_timestamp⟩ } := by
  constructor
  · simp [mapCardList]
  · intro i e h
    rw [List.get?_eq_getElem?] at h ⊢
    simp [mapCardList, List.getElem?_map, h]

/-- Concrete wire record for evaluating `mapCardList_elementwise`. -/
def sampleWire : ServiceNHICard :=
  { reader_name := "reader0"
    card_no := "000011112222"
    full_name := "WANG"
    id_no := "A123456789"
    birth_date := "1990/01/01"
    birth_date_timestamp := 631152000000
    sex := .M
    issue_date := "2010/01/01"
    issue_date_timestamp := 1262304000000 }

/-- Witness: `mapCardList_elementwise` applied to a one-element list. -/
theorem mapCardList_elementwise_witness :
    (mapCardList [sampleWire]).get? 0 = some
      { readerName := "reader0"
        cardNo := "000011112222"
        fullName := "WANG"
        idNo := "A123456789"
        birthday := ⟨631152000000⟩
        sex := .M
        issueDate := ⟨1262304000000⟩ } :=
  (mapCardList_elementwise [sampleWire]).2 0 sampleWire rfl

/-- C10: with no held socket, `setWebSocketInterval(x)` returns `false`,
sends nothing and changes nothing — for every `x`, including `undefined`;
whereas on a channel holding a socket, `setWebSocketInterval(undefined)`
does clear the stored interval. -/
theorem setWebSocketInterval_closed_frame (m : Machine) (x : Option Int)
    (h : m.webSocket = none) :
    setWebSocketInterval m x = (false, m, []) ∧
    ∀ m' : Machine, m'.webSocket.isSome = true →
      setWebSocketInterval m' none =
        (false, { m' with webSocketInterval := none }, []) := by
  constructor
  · simp [setWebSocketInterval, h]
  · intro m' h'
    simp [setWebSocketInterval, Option.isNone_iff_eq_none]
    intro hc
    rw [hc] at h'
    simp at h'

/-- Witness: `setWebSocketInterval_closed_frame` on the freshly constructed
channel, with both an explicit interval and `undefined`. -/
theorem setWebSocketInterval_closed_frame_witness :
    (initMachine false).webSocket = none ∧
    setWebSocketInterval (initMachine false) (some 5) =
      (false, initMachine false, []) ∧
    setWebSocketInterval (initMachine false) none =
      (false, initMachine false, []) :=
  ⟨rfl, (setWebSocketInterval_closed_frame (initMachine false) (some 5) rfl).1,
    (setWebSocketInterval_closed_frame (initMachine false) none rfl).1⟩

/-- C4 counterexample: a synchronous throw from the update callback is not
caught by the `onmessage` handler (there is no try/catch around the call at
src/lib.ts line 258): the handler outcome is `threw`, i.e. the exception
propagates out of the channel's message handler — refuting, at this
concrete input, the claim that it is caught, logged, and never propagated. -/
theorem update_callback_sync_throw_escapes :
    (onmessage (initMachine false) (some (.throwsSync "boom"))).2 =
      .threw "boom" := by decide

/-- C4 amended: a promise rejection from the update callback is caught and
logged and never alters the channel; a synchronous throw also never alters
the channel, but it escapes the message handler uncaught. -/
theorem update_callback_isolation (m : Machine) (e : String) :
    onmessage m (some (.promiseRejects e)) = (m, .completed [e]) ∧
    onmessage m (some (.throwsSync e)) = (m, .threw e) :=
  ⟨rfl, rfl⟩

/-- C3 counterexample: after a successful open followed by a disconnect the
channel is in the spec's `Retrying` state, yet `isWebSocketRunning()` is
`true` (the disconnected socket object is still stored in
`this.webSocket`), refuting "false while Retrying". -/
theorem isRunning_true_while_retrying :
    phase (run (initMachine false) [.openCall (some 3), .initOpen, .sockClosed])
      = .retrying ∧
    isWebSocketRunning
      (run (initMachine false) [.openCall (some 3), .initOpen, .sockClosed])
      = true := by decide

/-- C3 amended: `isWebSocketRunning()` is `true` iff the channel state is
`Open` or `Retrying`; it is `false` while `Connecting` or `Closed`. -/
theorem isRunning_iff_opened_or_retrying (m : Machine) :
    isWebSocketRunning m = true ↔ phase m = .opened ∨ phase m = .retrying := by
  rcases hw : m.webSocket with _ | s <;>
    rcases hr : m.retryPC with _ | pc <;>
      rcases hp : m.pendingNew with _ | id <;>
        by_cases hi : m.pendingInit = [] <;>
          simp [isWebSocketRunning, phase, hw, hr, hp, hi]

/-- C6 counterexample: with one `openWebSocket` still `Connecting`
(`this.webSocket` not yet assigned), a second `openWebSocket` call passes
the line-222 guard: it creates a second underlying socket and overwrites
the stored interval — not a no-op, violating the at-most-one
`Connecting` instance invariant. -/
theorem openCall_during_connecting_not_noop :
    phase (step (initMachine false) (.openCall (some 3))) = .connecting ∧
    step (step (initMachine false) (.openCall (some 3))) (.openCall (some 5)) ≠
      step (initMachine false) (.openCall (some 3)) ∧
    (step (step (initMachine false) (.openCall (some 3)))
        (.openCall (some 5))).created.length = 2 := by decide

/-- C6 amended: `openWebSocket` is a no-op exactly while the channel holds a
socket object (`Open`, or `Retrying` with the stale socket): no new
underlying connection and no state change.  While `Connecting` the guard
does not fire. -/
theorem openCall_held_noop (m : Machine) (i : Option Int)
    (h : m.webSocket.isSome = true) :
    step m (.openCall i) = m := by
  simp [step, h]

/-- Witness: `openCall_held_noop` on an `Open` channel. -/
theorem openCall_held_noop_witness :
    (run (initMachine false) [.openCall (some 3), .initOpen]).webSocket.isSome
      = true ∧
    step (run (initMachine false) [.openCall (some 3), .initOpen])
        (.openCall (some 7)) =
      run (initMachine false) [.openCall (some 3), .initOpen] :=
  ⟨by decide,
    openCall_held_noop (run (initMachine false) [.openCall (some 3), .initOpen])
      (some 7) (by decide)⟩

/-- C1 (code bug): `closeWebSocket()` during an in-flight reconnect attempt
makes `isWebSocketRunning()` false (`Closed`), but when the pending
reconnect socket then fires `onopen`, lines 306-314 assign
`this.webSocket = newWebSocket` without re-checking the closed flag, and
`isWebSocketRunning()` flips back to `true` — the reconnect completion is
not discarded. -/
theorem close_discards_inflight_reconnect_refuted :
    isWebSocketRunning (run (initMachine false)
      [.openCall (some 3), .initOpen, .sockClosed, .sleepDone, .close])
      = false ∧
    phase (run (initMachine false)
      [.openCall (some 3), .initOpen, .sockClosed, .sleepDone, .close])
      = .closed ∧
    isWebSocketRunning (run (initMachine false)
      [.openCall (some 3), .initOpen, .sockClosed, .sleepDone, .close, .newOpen])
      = true := by decide

/-! ### Reconnect veto (C7) -/

/-- Whether an event is a caller invocation of `openWebSocket`. -/
def isOpenCall : Ev → Bool
  | .openCall _ => true
  | _ => false

/-- A channel that holds no socket, has no retry coroutine, no pending
reconnect socket and no pending initial open: nothing can happen to it any
more without a fresh `openWebSocket` call. -/
def Inert (m : Machine) : Prop :=
  m.webSocket = none ∧ m.retryPC = none ∧ m.pendingNew = none ∧
    m.pendingInit = []

lemma step_inert (m : Machine) (e : Ev) (hm : Inert m)
    (he : isOpenCall e = false) : step m e = m := by
  obtain ⟨h1, h2, h3, h4⟩ := hm
  cases e <;> simp_all [step, isOpenCall]

lemma run_inert (m : Machine) (evs : List Ev) (hm : Inert m)
    (he : ∀ e ∈ evs, isOpenCall e = false) : run m evs = m := by
  induction evs with
  | nil => rfl
  | cons e rest ih =>
    rw [run, List.foldl_cons, step_inert m e hm (he e (List.mem_cons_self e rest))]
    exact ih fun e' h' => he e' (List.mem_cons_of_mem e h')

/-- C7: when the awaited retry policy resolves to exactly `false`, the
channel drops its socket and is `Closed`, and no sequence of further
event-loop events (short of a fresh `openWebSocket` call) creates another
connection attempt or resurrects it; any other policy outcome — `true`,
no return value, or a throw/rejection — lets the retry proceed to the
sleep. -/
theorem retryPolicy_veto (m : Machine) (evs : List Ev) (r : PolicyRes)
    (hpc : m.retryPC = some .awaitingPolicy)
    (hnew : m.pendingNew = none)
    (hinit : m.pendingInit = [])
    (hevs : ∀ e ∈ evs, isOpenCall e = false) :
    step m (.policyRet (.val (some false))) =
      { m with webSocket := none, retryPC := none } ∧
    phase (step m (.policyRet (.val (some false)))) = .closed ∧
    (run (step m (.policyRet (.val (some false)))) evs).created = m.created ∧
    isWebSocketRunning (run (step m (.policyRet (.val (some false)))) evs)
      = false ∧
    (r ≠ .val (some false) →
      (step m (.policyRet r)).retryPC = some .awaitingSleep) := by
  have hstep : step m (.policyRet (.val (some false))) =
      { m with webSocket := none, retryPC := none } := by
    simp [step, hpc]
  have hinert : Inert (step m (.policyRet (.val (some false)))) := by
    rw [hstep]
    exact ⟨rfl, rfl, hnew, hinit⟩
  have hrun := run_inert _ evs hinert hevs
  refine ⟨hstep, ?_, ?_, ?_, ?_⟩
  · rw [hstep]
    simp [phase, hinit]
  · rw [hrun, hstep]
  · rw [hrun, hstep]
    rfl
  · intro hne
    cases r with
    | threw => simp [step, hpc]
    | val b =>
      cases b with
      | none => simp [step, hpc]
      | some bb =>
        cases bb with
        | true => simp [step, hpc]
        | false => exact absurd rfl hne

/-- Channel after open, successful connect, and first disconnect, with a
retry policy registered: the retry coroutine is awaiting the policy. -/
def vetoM : Machine :=
  run (initMachine true) [.openCall (some 3), .initOpen, .sockClosed]

/-- Witness: `retryPolicy_veto` on a concretely reached channel. -/
theorem retryPolicy_veto_witness :
    vetoM.retryPC = some .awaitingPolicy ∧
    isWebSocketRunning
      (run (step vetoM (.policyRet (.val (some false))))
        [.sleepDone, .newOpen, .sockClosed]) = false :=
  ⟨by decide,
    (retryPolicy_veto vetoM [.sleepDone, .newOpen, .sockClosed] .threw
      (by decide) (by decide) (by decide) (by decide)).2.2.2.1⟩

/-! ### Reconnect spacing (C8) -/

lemma retryConnectTime_lower (t dPolicy : Nat) :
    t + RETRY_INTERVAL ≤ retryConnectTime t dPolicy := by
  simp only [retryConnectTime, RETRY_INTERVAL]
  split <;> omega

lemma attemptStarts_head (t : Nat) (ds : List (Nat × Nat)) :
    (attemptStarts t ds).head? = some t := by
  cases ds with
  | nil => rfl
  | cons p rest =>
    obtain ⟨a, b⟩ := p
    rfl

/-- C8: in any reconnect sequence, each attempt opens its connection no
earlier than `RETRY_INTERVAL` (1000) ms after the attempt's recorded start
time, and consecutive attempt start times are always at least
`RETRY_INTERVAL` ms apart, however fast each connection attempt fails. -/
theorem reconnect_spacing (t : Nat) (ds : List (Nat × Nat)) :
    (∀ dPolicy, t + RETRY_INTERVAL ≤ retryConnectTime t dPolicy) ∧
    List.Chain' (fun a b => a + RETRY_INTERVAL ≤ b) (attemptStarts t ds) := by
  refine ⟨fun dPolicy => retryConnectTime_lower t dPolicy, ?_⟩
  induction ds generalizing t with
  | nil => simp [attemptStarts]
  | cons p rest ih =>
    obtain ⟨dp, dc⟩ := p
    rw [attemptStarts, List.chain'_cons']
    refine ⟨?_, ih _⟩
    intro b hb
    rw [attemptStarts_head] at hb
    simp only [Option.mem_some_iff] at hb
    subst hb
    have := retryConnectTime_lower t dp
    omega

/-! ### Timed request taxonomy (C2, C5) -/

lemma timedOut_mono (s : Option Int) (t1 t2 : Nat) (h : t1 ≤ t2)
    (hf : timedOut s t2 = false) : timedOut s t1 = false := by
  cases s with
  | none => rfl
  | some b =>
    simp only [timedOut, decide_eq_false_iff_not, not_lt] at hf ⊢
    have : (t1 : Int) ≤ (t2 : Int) := by exact_mod_cast h
    omega

/-- C2 counterexample: with a 5 ms budget, a non-200 response arriving at
1 ms whose body read completes at 11 ms crosses the deadline while reading
the body, yet the result is the raw re-thrown `DOMException` of the
`skipCatch` path (lines 112-118), not the library's `TimeoutError` — so
"fails with TimeoutError exactly when the time budget elapses" is refuted
at this input. -/
theorem body_timeout_non200_not_timeouterror :
    getVersion (T := Nat) 5 (.respond 1 500 10 "oops" none) =
      .error (.rethrown
        (.domException "The operation was aborted due to timeout")) ∧
    isTimeoutError (getVersion (T := Nat) 5 (.respond 1 500 10 "oops" none))
      = false :=
  ⟨rfl, rfl⟩

/-- C2 amended: `TimeoutError` when the budget elapses before the
response/rejection event, or while reading the body of a status-200
response; when it elapses while reading the body of a non-200 response the
raw abort exception is re-thrown instead (not `TimeoutError`);
`NetworkError` for every transport rejection not preceded by the deadline;
no `TimeoutError` when the deadline is never crossed; and `getVersion(0)` /
`getCardList(0)` against a service that takes at least 1 ms to respond fail
with `TimeoutError`. -/
theorem fetch_timeout_taxonomy {T : Type} (t : Int) (ht : 0 ≤ t)
    (d status bodyDelay : Nat) (bodyText name msg : String)
    (bodyJson : Option T) :
    (timedOut (some t) d = false →
      fetchWithTimeout (T := T) (some t) (.refuse d name msg) =
        .error (.networkError name msg)) ∧
    (timedOut (some t) d = true →
      fetchWithTimeout (some t) (.respond d status bodyDelay bodyText bodyJson)
        = .error (.timeoutError "request timeout") ∧
      fetchWithTimeout (T := T) (some t) (.refuse d name msg) =
        .error (.timeoutError "request timeout")) ∧
    (timedOut (some t) d = false → timedOut (some t) (d + bodyDelay) = true →
      fetchWithTimeout (some t) (.respond d 200 bodyDelay bodyText bodyJson)
        = .error (.timeoutError "body timeout")) ∧
    (timedOut (some t) d = false → timedOut (some t) (d + bodyDelay) = true →
      status ≠ 200 →
      fetchWithTimeout (some t) (.respond d status bodyDelay bodyText bodyJson)
        = .error (.rethrown
            (.domException "The operation was aborted due to timeout")) ∧
      isTimeoutError (fetchWithTimeout (some t)
        (.respond d status bodyDelay bodyText bodyJson)) = false) ∧
    (timedOut (some t) (d + bodyDelay) = false →
      isTimeoutError (fetchWithTimeout (some t)
        (.respond d status bodyDelay bodyText bodyJson)) = false ∧
      isTimeoutError (fetchWithTimeout (T := T) (some t) (.refuse d name msg))
        = false) ∧
    (1 ≤ d →
      isTimeoutError (getVersion (T := T) 0
        (.respond d status bodyDelay bodyText bodyJson)) = true ∧
      isTimeoutError (getCardList 0
        (.respond d status bodyDelay bodyText none)) = true) := by
  have hs : effectiveSignal (some t) = some t := by
    simp [effectiveSignal, ht]
  refine ⟨?_, ?_, ?_, ?_, ?_, ?_⟩
  · intro h
    simp [fetchWithTimeout, hs, h]
  · intro h
    exact ⟨by simp [fetchWithTimeout, hs, h], by simp [fetchWithTimeout, hs, h]⟩
  · intro h hb
    simp [fetchWithTimeout, bodyJsonResult, hs, h, hb]
  · intro h hb hst
    have e1 : fetchWithTimeout (some t)
        (.respond d status bodyDelay bodyText bodyJson) =
        .error (.rethrown
          (.domException "The operation was aborted due to timeout")) := by
      simp [fetchWithTimeout, bodyTextResult, hs, h, hb, hst]
    exact ⟨e1, by rw [e1]; rfl⟩
  · intro hb
    have h := timedOut_mono (some t) d (d + bodyDelay) (Nat.le_add_right d bodyDelay) hb
    constructor
    · by_cases h200 : status = 200
      · subst h200
        cases bodyJson <;>
          simp [fetchWithTimeout, bodyJsonResult, hs, h, hb, isTimeoutError]
      · simp [fetchWithTimeout, bodyTextResult, hs, h, hb, h200, isTimeoutError]
    · simp [fetchWithTimeout, hs, h, isTimeoutError]
  · intro hd
    have h0 : timedOut (some (0 : Int)) d = true := by
      simp only [timedOut, decide_eq_true_eq]
      exact_mod_cast hd
    constructor
    · simp [getVersion, fetchWithTimeout, effectiveSignal, h0, isTimeoutError]
    · simp [getCardList, fetchWithTimeout, effectiveSignal, h0, isTimeoutError,
        Except.map]

/-- Witness: `fetch_timeout_taxonomy` with a 5000 ms budget and a
connection refused after 1 ms. -/
theorem fetch_timeout_taxonomy_witness :
    (0 : Int) ≤ 5000 ∧
    (timedOut (some (5000 : Int)) 1 = false →
      fetchWithTimeout (T := Nat) (some (5000 : Int))
        (.refuse 1 "TypeError" "fetch failed") =
        .error (.networkError "TypeError" "fetch failed")) :=
  ⟨by decide,
    (fetch_timeout_taxonomy (T := Nat) 5000 (by decide) 1 500 10 "b"
      "TypeError" "fetch failed" none).1⟩

/-- C5 counterexample: a status-201 response (a 2xx success status) with a
valid JSON body is not returned as the parsed body: line 109 tests
`status === 200`, so 201 takes the generic-error branch. -/
theorem status201_not_parsed :
    fetchWithTimeout (T := Nat) none (.respond 1 201 1 "7" (some 7)) =
      .error (.statusError 201 "7") ∧
    isTimeoutError
      (fetchWithTimeout (T := Nat) none (.respond 1 201 1 "7" (some 7)))
      = false ∧
    isNetworkError
      (fetchWithTimeout (T := Nat) none (.respond 1 201 1 "7" (some 7)))
      = false :=
  ⟨rfl, rfl, rfl⟩

/-- C5 amended: with the deadline never crossed, a response with status
exactly 200 and a parseable body yields the parsed body, and any other
status yields the generic error carrying the status code and the raw body
text — an error that is neither `NetworkError` nor `TimeoutError`. -/
theorem fetch_status_exactly_200 {T : Type} (t : Option Int)
    (d status bodyDelay : Nat) (bodyText : String) (bodyJson : Option T)
    (v : T)
    (h2 : timedOut (effectiveSignal t) (d + bodyDelay) = false) :
    fetchWithTimeout t (.respond d 200 bodyDelay bodyText (some v)) = .ok v ∧
    (status ≠ 200 →
      fetchWithTimeout t (.respond d status bodyDelay bodyText bodyJson) =
        .error (.statusError status bodyText)) ∧
    isTimeoutError (.error (.statusError status bodyText) : Except JsError T)
      = false ∧
    isNetworkError (.error (.statusError status bodyText) : Except JsError T)
      = false := by
  have h1 := timedOut_mono (effectiveSignal t) d (d + bodyDelay)
    (Nat.le_add_right d bodyDelay) h2
  refine ⟨?_, ?_, rfl, rfl⟩
  · simp [fetchWithTimeout, bodyJsonResult, h1, h2]
  · intro hs
    simp [fetchWithTimeout, bodyTextResult, h1, h2, hs]

/-- Witness: `fetch_status_exactly_200` with a 5000 ms budget, a 1 ms
response, and a 1 ms body read. -/
theorem fetch_status_exactly_200_witness :
    timedOut (effectiveSignal (some (5000 : Int))) (1 + 1) = false ∧
    fetchWithTimeout (some (5000 : Int)) (.respond 1 200 1 "[9]" (some 9)) =
      .ok 9 :=
  ⟨by decide,
    (fetch_status_exactly_200 (some (5000 : Int)) 1 404 1 "[9]" none 9
      (by decide)).1⟩

end TwNhiIcc
